import Mathlib

/-!
Verification of the Liveness / KeepAlive manager of the WozaOffice
repository (src/src/lib/keepalive-manager.ts), shallowly embedded in Lean.

Time is modelled in milliseconds as `Nat` (JavaScript `Date.now()`);
arithmetic that may go negative uses `Int` exactly where the source
subtracts JS numbers.  Each asynchronous timer callback is linearised into
a pure function from the outcomes of its external calls (session fetch,
session refresh, probe, reconnect, logout) to a list of emitted effects,
the updated local state, and whether an exception escapes the callback.
-/

/-- One external side effect performed by the manager, in program order. -/
inductive Effect
  | getSession
  | refreshSession
  | reconnect
  | logout
  | redirect
  | broadcast (reason : String) (hiddenDuration : Option Int)
deriving DecidableEq, Repr

/-- The broadcasts (reason and optional hiddenDuration payload) contained in
an effect list, in order: the `app:refresh` CustomEvent dispatches. -/
def broadcasts (es : List Effect) : List (String × Option Int) :=
  es.filterMap (fun e =>
    match e with
    | .broadcast r h => some (r, h)
    | _ => none)

/-- A Supabase session as the manager reads it: only `expires_at`
(seconds since epoch, possibly absent) matters to the keepalive code. -/
structure Session where
  expires_at : Option Nat
deriving DecidableEq, Repr

/-- Outcome of `supabase.auth.getSession()`: the promise may reject
(`throws`), resolve with a non-null `error` field (`errorResult`), or
resolve cleanly with an optional session. -/
inductive FetchResult
  | throws
  | errorResult
  | ok (session : Option Session)
deriving DecidableEq, Repr

/-- Outcome of `supabase.auth.refreshSession()`: rejection, a resolved
non-null `error` field, or clean success. -/
inductive RefreshResult
  | throws
  | errorResult
  | ok
deriving DecidableEq, Repr

/-- Outcome of a fire-and-forget external call (`reconnectNow`,
`performCompleteLogout`): returns normally or throws. -/
inductive CallMode
  | ok
  | throws
deriving DecidableEq, Repr

/-- Outcome of the raced probe query in the ping callback: clean success,
a resolved error with a code (the 5s timeout arm resolves with code
TIMEOUT; "no rows" resolves with code PGRST116), or a rejection. -/
inductive ProbeResult
  | ok
  | errCode (c : String)
  | throws
deriving DecidableEq, Repr

/-- `const expiresAt = session.expires_at ? session.expires_at * 1000 : 0`. -/
def expiresAtMs (s : Session) : Nat :=
  match s.expires_at with
  | some e => e * 1000
  | none => 0

/-- `const timeUntilExpiry = expiresAt - Date.now()` (JS number subtraction,
hence `Int`). -/
def timeUntilExpiry (now : Nat) (s : Session) : Int :=
  (expiresAtMs s : Int) - (now : Int)

/-- The guard on line 99 of keepalive-manager.ts:
`timeUntilExpiry < 5 * 60 * 1000 || timeUntilExpiry > 60 * 60 * 1000`. -/
def shouldRefresh (now : Nat) (s : Session) : Bool :=
  timeUntilExpiry now s < 5 * 60 * 1000 || timeUntilExpiry now s > 60 * 60 * 1000

/-- Outcomes of the external calls an auth-refresh tick can make, plus the
current time.  `recoveryRefresh` is the refresh attempted inside the
fetch-error branch; its result is discarded by the source and its
rejection swallowed by the inner try/catch. -/
structure AuthEnv where
  now : Nat
  fetch : FetchResult
  recoveryRefresh : RefreshResult
  refresh : RefreshResult
  logout : CallMode
deriving DecidableEq, Repr

/-- Result of running one timer callback: the effects it performed and
whether an exception escaped the callback body (i.e. was not caught by any
try/catch inside it). -/
structure TickResult where
  effects : List Effect
  propagates : Bool
deriving DecidableEq, Repr

/-- One tick of the auth-refresh interval callback
(keepalive-manager.ts lines 78-120).  The whole body sits inside a
try/catch whose handler only logs, so no branch propagates. -/
def authTick (env : AuthEnv) : TickResult :=
  match env.fetch with
  | .throws =>
      -- getSession rejected: caught by the outer catch (line 116)
      ⟨[.getSession], false⟩
  | .errorResult =>
      -- error branch (lines 82-91): one recovery refresh whose own
      -- rejection is swallowed by the inner try/catch, then return
      ⟨[.getSession, .refreshSession], false⟩
  | .ok none =>
      -- no session: log only (lines 112-115)
      ⟨[.getSession], false⟩
  | .ok (some s) =>
      if shouldRefresh env.now s then
        match env.refresh with
        | .throws =>
            -- refreshSession rejected: caught by the outer catch
            ⟨[.getSession, .refreshSession], false⟩
        | .ok =>
            ⟨[.getSession, .refreshSession], false⟩
        | .errorResult =>
            -- lines 101-107: full logout, then redirect
            match env.logout with
            | .throws =>
                -- performCompleteLogout rejected: caught by the outer
                -- catch, so the redirect is never reached
                ⟨[.getSession, .refreshSession, .logout], false⟩
            | .ok =>
                ⟨[.getSession, .refreshSession, .logout, .redirect], false⟩
      else
        ⟨[.getSession], false⟩

/-- Outcomes of the external calls a connection-ping tick can make.
`reconnectInTry` is the `reconnectNow()` call made inside the try block
(lines 158 and 162); `reconnectInCatch` is the one made inside the catch
handler (line 170). -/
structure PingEnv where
  now : Nat
  probe : ProbeResult
  reconnectInTry : CallMode
  reconnectInCatch : CallMode
deriving DecidableEq, Repr

/-- Result of one ping tick: effects, the (possibly updated)
`lastActivity` field, and whether an exception escaped the callback. -/
structure PingResult where
  effects : List Effect
  lastActivity : Nat
  propagates : Bool
deriving DecidableEq, Repr

/-- One tick of the connection-ping interval callback
(keepalive-manager.ts lines 130-172).  The probe is raced against a 5s
timeout that resolves with `error.code = TIMEOUT`.  `reconnectNow()` is
invoked synchronously and not awaited, so a throw from the call inside
the catch handler escapes the callback. -/
def pingTick (env : PingEnv) (lastActivity : Nat) : PingResult :=
  match env.probe with
  | .ok =>
      -- no error: connection alive, lastActivity updated (line 166)
      ⟨[], env.now, false⟩
  | .errCode c =>
      if c = "PGRST116" then
        -- "no rows returned" counts as success (lines 153-155)
        ⟨[], env.now, false⟩
      else
        -- TIMEOUT or any other code: reconnect (lines 156-163)
        match env.reconnectInTry with
        | .ok => ⟨[.reconnect], lastActivity, false⟩
        | .throws =>
            -- the throw is caught by the catch handler, which invokes
            -- reconnectNow again (line 170); a throw there escapes
            ⟨[.reconnect, .reconnect], lastActivity,
              env.reconnectInCatch == .throws⟩
  | .throws =>
      -- the awaited race rejected: catch handler invokes reconnectNow;
      -- a throw from that call is caught by nothing in the callback
      ⟨[.reconnect], lastActivity, env.reconnectInCatch == .throws⟩

/-- State local to `setupVisibilityRefresh` (lines 180-181):
`lastHiddenTime` starts at 0, `lastVisibleTime` at the install time. -/
structure VisState where
  lastHiddenTime : Nat
  lastVisibleTime : Nat
deriving DecidableEq, Repr

/-- Outcomes of the external calls the visibility-change handler can make. -/
structure VisEnv where
  now : Nat
  fetch : FetchResult
  refresh : RefreshResult
  logout : CallMode
deriving DecidableEq, Repr

/-- Result of one visibility-change event: effects and updated state. -/
structure VisResult where
  effects : List Effect
  state : VisState
deriving DecidableEq, Repr

/-- `const hiddenDuration = Date.now() - lastHiddenTime` (line 185). -/
def hiddenDurationOf (now : Nat) (vs : VisState) : Int :=
  (now : Int) - (vs.lastHiddenTime : Int)

/-- `const timeSinceLastVisible = Date.now() - lastVisibleTime` (line 186). -/
def timeSinceLastVisibleOf (now : Nat) (vs : VisState) : Int :=
  (now : Int) - (vs.lastVisibleTime : Int)

/-- The guard on line 190: `hiddenDuration > 1000 || timeSinceLastVisible > 60000`. -/
def visQualifies (now : Nat) (vs : VisState) : Bool :=
  hiddenDurationOf now vs > 1000 || timeSinceLastVisibleOf now vs > 60000

/-- Effects of the `getSession().then(...).catch(console.error)` chain in
the visibility handler (lines 195-208).  The handler destructures only
`session` (it never inspects the error field), refreshes only when a
session exists, and every rejection anywhere in the chain is swallowed by
the trailing catch. -/
def visSessionChain (env : VisEnv) : List Effect :=
  match env.fetch with
  | .throws => []
  | .errorResult => []
  | .ok none => []
  | .ok (some _) =>
      match env.refresh with
      | .ok => [.refreshSession]
      | .throws => [.refreshSession]
      | .errorResult =>
          match env.logout with
          | .throws => [.refreshSession, .logout]
          | .ok => [.refreshSession, .logout, .redirect]

/-- One `visibilitychange` event (keepalive-manager.ts lines 183-223).
`visible` is `document.visibilityState === 'visible'`.  On a qualifying
visible event: the session chain is started, `reconnectNow()` is called,
and one `app:refresh` broadcast with reason visibility-change and the
hidden duration is dispatched; `lastVisibleTime` is then set
unconditionally.  On a hidden event only `lastHiddenTime` is recorded. -/
def visibilityHandler (visible : Bool) (env : VisEnv) (vs : VisState) : VisResult :=
  if visible then
    let es :=
      if visQualifies env.now vs then
        .getSession :: visSessionChain env ++
          [.reconnect, .broadcast ("visibility-change") (some (hiddenDurationOf env.now vs))]
      else []
    ⟨es, ⟨vs.lastHiddenTime, env.now⟩⟩
  else
    ⟨[], ⟨env.now, vs.lastVisibleTime⟩⟩

/-- Outcomes of the external calls of one idle-check tick.  The refresh
outcome is irrelevant to behaviour: the source swallows it with
`.catch(console.warn)`. -/
structure IdleEnv where
  now : Nat
  fetch : FetchResult
  refresh : RefreshResult
  visible : Bool
deriving DecidableEq, Repr

/-- Result of one idle-check tick: effects and the updated `lastActivity`. -/
structure IdleResult where
  effects : List Effect
  lastActivity : Nat
deriving DecidableEq, Repr

/-- The guard on line 232:
`timeSinceActivity > 10 * 60 * 1000 && document.visibilityState === 'visible'`.
(The source also computes `timeSinceVisible` on line 229 but never uses it.) -/
def idleQualifies (env : IdleEnv) (lastActivity : Nat) : Bool :=
  ((env.now : Int) - (lastActivity : Int) > 10 * 60 * 1000) && env.visible

/-- Effects of the `getSession().then(...)` chain in the idle check
(lines 236-240): refresh only when a session exists; every error of the
fetch and of the refresh is swallowed by catch handlers. -/
def idleSessionChain (env : IdleEnv) : List Effect :=
  match env.fetch with
  | .throws => []
  | .errorResult => []
  | .ok none => []
  | .ok (some _) => [.refreshSession]

/-- One tick of the 5-minute idle-check interval
(keepalive-manager.ts lines 227-249).  On a qualifying tick: start the
best-effort session chain, dispatch one `app:refresh` broadcast with
reason idle-refresh (no hiddenDuration payload), and reset
`lastActivity` to now.  Otherwise do nothing. -/
def idleTick (env : IdleEnv) (lastActivity : Nat) : IdleResult :=
  if idleQualifies env lastActivity then
    ⟨.getSession :: idleSessionChain env ++ [.broadcast ("idle-refresh") none], env.now⟩
  else
    ⟨[], lastActivity⟩

/-- The kind of an interval timer the manager registers. -/
inductive TimerKind
  | authRefresh
  | connectionPing
  | idleCheck
deriving DecidableEq, Repr

/-- The host's interval-timer table: a fresh-id counter and the pending
interval timers (id and kind).  `setInterval` allocates a fresh id;
`clearInterval` removes the timer with that id. -/
structure TimerSys where
  nextId : Nat
  pending : List (Nat × TimerKind)
deriving DecidableEq, Repr

/-- `setInterval`: returns the new timer id and the updated table. -/
def setIntervalT (t : TimerSys) (k : TimerKind) : Nat × TimerSys :=
  (t.nextId, ⟨t.nextId + 1, (t.nextId, k) :: t.pending⟩)

/-- `clearInterval`. -/
def clearIntervalT (t : TimerSys) (id : Nat) : TimerSys :=
  ⟨t.nextId, t.pending.filter (fun e => e.1 != id)⟩

/-- How many pending interval timers of kind `k` the table holds. -/
def countKind (t : TimerSys) (k : TimerKind) : Nat :=
  (t.pending.filter (fun e => e.2 == k)).length

/-- All pending ids are below the fresh-id counter (invariant of the host
timer table). -/
def timersFresh (t : TimerSys) : Bool :=
  t.pending.all (fun e => e.1 < t.nextId)

/-- The KeepAliveManager's own fields (keepalive-manager.ts lines 13-16). -/
structure ManagerState where
  authRefreshInterval : Option Nat
  connectionPingInterval : Option Nat
  lastActivity : Nat
  isActive : Bool
deriving DecidableEq, Repr

/-- `start()` (lines 21-39): no-op when already active; otherwise set
isActive and lastActivity, install activity listeners (no timers), start
the auth-refresh and connection-ping intervals (ids stored in fields),
and run setupVisibilityRefresh, which installs a visibilitychange
listener and an idle-check interval whose id is discarded (line 227). -/
def KeepAliveManager.start (now : Nat) (s : ManagerState) (t : TimerSys) :
    ManagerState × TimerSys :=
  if s.isActive then (s, t)
  else
    let a := setIntervalT t .authRefresh
    let p := setIntervalT a.2 .connectionPing
    let v := setIntervalT p.2 .idleCheck
    (⟨some a.1, some p.1, now, true⟩, v.2)

/-- `stop()` (lines 44-55): set isActive false; clear and null each of the
two stored interval ids when present.  (When a field is already null it
stays null, so building the final state with null fields is faithful.) -/
def KeepAliveManager.stop (s : ManagerState) (t : TimerSys) :
    ManagerState × TimerSys :=
  let t1 :=
    match s.authRefreshInterval with
    | some id => clearIntervalT t id
    | none => t
  let t2 :=
    match s.connectionPingInterval with
    | some id => clearIntervalT t1 id
    | none => t1
  (⟨none, none, s.lastActivity, false⟩, t2)

/-- `getActive()` (lines 262-264). -/
def KeepAliveManager.getActive (s : ManagerState) : Bool :=
  s.isActive

/-- `getLastActivity()` (lines 255-257). -/
def KeepAliveManager.getLastActivity (s : ManagerState) : Nat :=
  s.lastActivity

/-- The singleton's initial fields (lines 13-16), with module-load time
abstracted to 0 for `lastActivity`. -/
def initState : ManagerState :=
  ⟨none, none, 0, false⟩

/-- An empty host timer table. -/
def initTimers : TimerSys :=
  ⟨0, []⟩

/-- Whether a session-fetch outcome delivered a session to the handler. -/
def sessionPresent (f : FetchResult) : Bool :=
  match f with
  | .ok (some _) => true
  | _ => false

/-- Filtering out an id at or above the fresh-id bound leaves a pending
list untouched. -/
theorem filter_ne_id_of_fresh (l : List (Nat × TimerKind)) (m i : Nat)
    (h : l.all (fun e => e.1 < m) = true) (hi : m ≤ i) :
    l.filter (fun e => e.1 != i) = l := by
  induction l with
  | nil => rfl
  | cons e tl ih =>
      simp only [List.all_cons, Bool.and_eq_true, decide_eq_true_eq] at h
      have he : (e.1 != i) = true := by
        simp only [bne_iff_ne, ne_eq]
        omega
      simp only [List.filter_cons, he, if_true, ih h.2]

/-- On a qualifying visible event the handler's effect list is the session
chain bracketed by getSession in front and reconnect plus the broadcast
behind. -/
theorem visHandler_qualifying_effects (env : VisEnv) (vs : VisState)
    (hq : visQualifies env.now vs = true) :
    (visibilityHandler true env vs).effects =
      .getSession :: visSessionChain env ++
        [.reconnect, .broadcast ("visibility-change") (some (hiddenDurationOf env.now vs))] := by
  simp [visibilityHandler, hq]

/-- The session chain of the visibility handler never reconnects, never
broadcasts, never fetches, and refreshes exactly once iff the fetch
delivered a session. -/
theorem visSessionChain_counts (env : VisEnv) :
    (visSessionChain env).count .getSession = 0 ∧
    (visSessionChain env).count .reconnect = 0 ∧
    broadcasts (visSessionChain env) = [] ∧
    (visSessionChain env).count .refreshSession =
      (if sessionPresent env.fetch then 1 else 0) := by
  obtain ⟨n, f, r, l⟩ := env
  cases f with
  | throws => simp [visSessionChain, sessionPresent, broadcasts]
  | errorResult => simp [visSessionChain, sessionPresent, broadcasts]
  | ok os =>
      cases os with
      | none => simp [visSessionChain, sessionPresent, broadcasts]
      | some s =>
          cases r with
          | ok => simp [visSessionChain, sessionPresent, broadcasts]
          | throws => simp [visSessionChain, sessionPresent, broadcasts]
          | errorResult =>
              cases l with
              | ok => simp [visSessionChain, sessionPresent, broadcasts]
              | throws => simp [visSessionChain, sessionPresent, broadcasts]

/-- C1 counterexample: starting the manager from its initial state and then
stopping it leaves the idle-check interval registered by
setupVisibilityRefresh pending (its id was never stored, so stop() cannot
clear it), refuting that zero interval timers remain pending. -/
theorem stop_after_start_leaves_idle_interval_pending :
    (KeepAliveManager.stop (KeepAliveManager.start 2000 initState initTimers).1
        (KeepAliveManager.start 2000 initState initTimers).2).2.pending =
      [(2, TimerKind.idleCheck)] ∧
    KeepAliveManager.getActive (KeepAliveManager.stop
        (KeepAliveManager.start 2000 initState initTimers).1
        (KeepAliveManager.start 2000 initState initTimers).2).1 = false := by
  decide

/-- C1 (amended): stop() after start() clears the auth-refresh and
connection-ping interval timers and getActive() then returns false, but
the idle-check interval registered by setupVisibilityRefresh remains
pending — each start from the stopped state leaks one idle-check timer. -/
theorem stop_after_start_clears_stored_timers_not_idle
    (s : ManagerState) (t : TimerSys) (now : Nat)
    (hA : s.isActive = false)
    (hfresh : timersFresh t = true)
    (ha : countKind t .authRefresh = 0)
    (hp : countKind t .connectionPing = 0) :
    KeepAliveManager.getActive (KeepAliveManager.stop
        (KeepAliveManager.start now s t).1 (KeepAliveManager.start now s t).2).1 = false ∧
    countKind (KeepAliveManager.stop (KeepAliveManager.start now s t).1
        (KeepAliveManager.start now s t).2).2 .authRefresh = 0 ∧
    countKind (KeepAliveManager.stop (KeepAliveManager.start now s t).1
        (KeepAliveManager.start now s t).2).2 .connectionPing = 0 ∧
    countKind (KeepAliveManager.stop (KeepAliveManager.start now s t).1
        (KeepAliveManager.start now s t).2).2 .idleCheck =
      countKind t .idleCheck + 1 := by
  have hb2 : ((t.nextId + 2 : Nat) != t.nextId) = true := by
    simp only [bne_iff_ne, ne_eq]
    omega
  have hb1 : ((t.nextId + 1 : Nat) != t.nextId) = true := by
    simp only [bne_iff_ne, ne_eq]
    omega
  have hb0 : ((t.nextId : Nat) != t.nextId) = false := by
    simp
  have hb21 : ((t.nextId + 2 : Nat) != t.nextId + 1) = true := by
    simp only [bne_iff_ne, ne_eq]
    omega
  have hb11 : ((t.nextId + 1 : Nat) != t.nextId + 1) = false := by
    simp
  have hf1 : t.pending.filter (fun e => e.1 != t.nextId) = t.pending :=
    filter_ne_id_of_fresh t.pending t.nextId t.nextId hfresh (le_refl _)
  have hf2 : t.pending.filter (fun e => e.1 != t.nextId + 1) = t.pending :=
    filter_ne_id_of_fresh t.pending t.nextId (t.nextId + 1) hfresh (by omega)
  simp only [countKind] at ha hp
  simp [KeepAliveManager.start, KeepAliveManager.stop, KeepAliveManager.getActive,
    setIntervalT, clearIntervalT, countKind, hA, List.filter_cons, hb2, hb1, hb0,
    hb21, hb11, hf1, hf2, ha, hp]

/-- C1 witness: the amended theorem instantiated at the initial state and
an empty timer table. -/
theorem stop_after_start_clears_stored_timers_not_idle_witness :
    KeepAliveManager.getActive (KeepAliveManager.stop
        (KeepAliveManager.start 7 initState initTimers).1
        (KeepAliveManager.start 7 initState initTimers).2).1 = false ∧
    countKind (KeepAliveManager.stop (KeepAliveManager.start 7 initState initTimers).1
        (KeepAliveManager.start 7 initState initTimers).2).2 .authRefresh = 0 ∧
    countKind (KeepAliveManager.stop (KeepAliveManager.start 7 initState initTimers).1
        (KeepAliveManager.start 7 initState initTimers).2).2 .connectionPing = 0 ∧
    countKind (KeepAliveManager.stop (KeepAliveManager.start 7 initState initTimers).1
        (KeepAliveManager.start 7 initState initTimers).2).2 .idleCheck =
      countKind initTimers .idleCheck + 1 :=
  stop_after_start_clears_stored_timers_not_idle initState initTimers 7
    rfl (by decide) (by decide) (by decide)

/-- C2: start() is a no-op when the manager is already active, and from any
state satisfying the running-iff-timers invariant two successive start()
calls leave exactly one pending auth-refresh interval and exactly one
pending connection-ping interval. -/
theorem start_is_idempotent_no_duplicate_timers
    (s : ManagerState) (t : TimerSys) (now now2 : Nat)
    (hrun : s.isActive = true →
      countKind t .authRefresh = 1 ∧ countKind t .connectionPing = 1)
    (hstop : s.isActive = false →
      countKind t .authRefresh = 0 ∧ countKind t .connectionPing = 0) :
    (s.isActive = true → KeepAliveManager.start now s t = (s, t)) ∧
    countKind (KeepAliveManager.start now2 (KeepAliveManager.start now s t).1
        (KeepAliveManager.start now s t).2).2 .authRefresh = 1 ∧
    countKind (KeepAliveManager.start now2 (KeepAliveManager.start now s t).1
        (KeepAliveManager.start now s t).2).2 .connectionPing = 1 := by
  cases hA : s.isActive with
  | true =>
      have h1 : KeepAliveManager.start now s t = (s, t) := by
        simp [KeepAliveManager.start, hA]
      have h2 : KeepAliveManager.start now2 s t = (s, t) := by
        simp [KeepAliveManager.start, hA]
      refine ⟨fun _ => h1, ?_, ?_⟩
      · rw [h1]
        simp only [h2]
        exact (hrun hA).1
      · rw [h1]
        simp only [h2]
        exact (hrun hA).2
  | false =>
      obtain ⟨hca, hcp⟩ := hstop hA
      simp only [countKind] at hca hcp
      constructor
      · intro hcontra
        exact absurd hcontra (by simp [hA])
      · simp [KeepAliveManager.start, setIntervalT, countKind, hA,
          List.filter_cons, hca, hcp]

/-- C2 witness: the theorem instantiated at the singleton's initial state
and an empty timer table. -/
theorem start_is_idempotent_no_duplicate_timers_witness :
    (initState.isActive = true →
      KeepAliveManager.start 5 initState initTimers = (initState, initTimers)) ∧
    countKind (KeepAliveManager.start 9 (KeepAliveManager.start 5 initState initTimers).1
        (KeepAliveManager.start 5 initState initTimers).2).2 .authRefresh = 1 ∧
    countKind (KeepAliveManager.start 9 (KeepAliveManager.start 5 initState initTimers).1
        (KeepAliveManager.start 5 initState initTimers).2).2 .connectionPing = 1 :=
  start_is_idempotent_no_duplicate_timers initState initTimers 5 9
    (by decide) (by decide)

/-- C3: on an auth-refresh tick whose session fetch succeeds with a
session, refreshSession is called exactly when
timeUntilExpiry < 5 minutes or timeUntilExpiry > 60 minutes; a session
expiring in 2 minutes is refreshed, one expiring in 30 minutes is not. -/
theorem auth_refresh_iff_expiry_thresholds
    (env : AuthEnv) (s : Session) (h : env.fetch = .ok (some s)) :
    ((authTick env).effects.count .refreshSession =
      if shouldRefresh env.now s then 1 else 0) ∧
    (shouldRefresh env.now s = true ↔
      (timeUntilExpiry env.now s < 5 * 60 * 1000 ∨
        timeUntilExpiry env.now s > 60 * 60 * 1000)) ∧
    (authTick ⟨1000000000, .ok (some ⟨some 1000120⟩), .ok, .ok, .ok⟩).effects.count
      .refreshSession = 1 ∧
    (authTick ⟨1000000000, .ok (some ⟨some 1001800⟩), .ok, .ok, .ok⟩).effects.count
      .refreshSession = 0 := by
  refine ⟨?_, ?_, by decide, by decide⟩
  · cases hs : shouldRefresh env.now s with
    | false => simp [authTick, h, hs]
    | true =>
        cases hr : env.refresh with
        | throws => simp [authTick, h, hs, hr]
        | ok => simp [authTick, h, hs, hr]
        | errorResult =>
            cases hl : env.logout with
            | throws => simp [authTick, h, hs, hr, hl]
            | ok => simp [authTick, h, hs, hr, hl]
  · simp [shouldRefresh]

/-- C3 witness: the theorem instantiated at a tick whose session expires
two minutes after the current time. -/
theorem auth_refresh_iff_expiry_thresholds_witness :
    (authTick ⟨1000000000, .ok (some ⟨some 1000120⟩), .ok, .ok, .ok⟩).effects.count
      .refreshSession = 1 :=
  ((auth_refresh_iff_expiry_thresholds
      ⟨1000000000, .ok (some ⟨some 1000120⟩), .ok, .ok, .ok⟩
      ⟨some 1000120⟩ rfl).1).trans (by decide)

/-- C4 counterexample: the visibility-change handler is a second code path
performing the complete-logout and redirect global side effects (first two
conjuncts), so the auth-refresh failure path is not the only one; and when
the logout call itself throws, the auth tick performs no redirect at all
(third conjunct), refuting one-logout-then-one-redirect for every failing
tick. -/
theorem logout_redirect_not_unique_to_auth_tick :
    (visibilityHandler true ⟨70000, .ok (some ⟨some 1⟩), .errorResult, .ok⟩
      ⟨0, 5000⟩).effects.count .logout = 1 ∧
    (visibilityHandler true ⟨70000, .ok (some ⟨some 1⟩), .errorResult, .ok⟩
      ⟨0, 5000⟩).effects.count .redirect = 1 ∧
    (authTick ⟨1000, .ok (some ⟨none⟩), .ok, .errorResult, .throws⟩).effects.count
      .redirect = 0 := by
  decide

/-- C4 (amended): on every auth-refresh tick whose refreshSession call
returns an error and whose logout call returns normally, the manager
performs exactly one complete logout followed by exactly one redirect (in
that order, and nothing else); this is however not the only code path of
the subsystem with such global side effects — the visibility-change
handler performs the same logout and redirect on its own refresh
failure. -/
theorem auth_refresh_failure_logout_then_redirect
    (env : AuthEnv) (s : Session)
    (hf : env.fetch = .ok (some s))
    (hs : shouldRefresh env.now s = true)
    (hr : env.refresh = .errorResult)
    (hl : env.logout = .ok) :
    (authTick env).effects = [.getSession, .refreshSession, .logout, .redirect] := by
  simp [authTick, hf, hs, hr, hl]

/-- C4 witness: the amended theorem instantiated at a tick with an expired
session, a failing refresh and a successful logout. -/
theorem auth_refresh_failure_logout_then_redirect_witness :
    (authTick ⟨0, .ok (some ⟨some 0⟩), .ok, .errorResult, .ok⟩).effects =
      [.getSession, .refreshSession, .logout, .redirect] :=
  auth_refresh_failure_logout_then_redirect
    ⟨0, .ok (some ⟨some 0⟩), .ok, .errorResult, .ok⟩ ⟨some 0⟩
    rfl (by decide) rfl rfl

/-- C5: a successful probe (including the PGRST116 no-rows outcome)
updates lastActivity and never reconnects; a probe that times out, errors
with any other code, or rejects leads to exactly one reconnectNow
invocation (given that the invocation itself returns normally), raises
nothing to the caller, and leaves lastActivity unchanged. -/
theorem ping_tick_outcomes (env : PingEnv) (la : Nat) :
    (env.probe = .ok → pingTick env la = ⟨[], env.now, false⟩) ∧
    (env.probe = .errCode ("PGRST116") → pingTick env la = ⟨[], env.now, false⟩) ∧
    (∀ c, env.probe = .errCode c → c ≠ "PGRST116" → env.reconnectInTry = .ok →
      (pingTick env la).effects.count .reconnect = 1 ∧
      (pingTick env la).propagates = false ∧
      (pingTick env la).lastActivity = la) ∧
    (env.probe = .throws → env.reconnectInCatch = .ok →
      (pingTick env la).effects.count .reconnect = 1 ∧
      (pingTick env la).propagates = false ∧
      (pingTick env la).lastActivity = la) := by
  refine ⟨?_, ?_, ?_, ?_⟩
  · intro h
    simp [pingTick, h]
  · intro h
    simp [pingTick, h]
  · intro c h hc hr
    simp [pingTick, h, hc, hr]
  · intro h hrc
    simp [pingTick, h, hrc]

/-- C5 witness: the theorem instantiated at a clean probe and at a probe
that hits the 5-second timeout. -/
theorem ping_tick_outcomes_witness :
    pingTick ⟨42, .ok, .ok, .ok⟩ 7 = ⟨[], 42, false⟩ ∧
    ((pingTick ⟨42, .errCode ("TIMEOUT"), .ok, .ok⟩ 7).effects.count .reconnect = 1 ∧
      (pingTick ⟨42, .errCode ("TIMEOUT"), .ok, .ok⟩ 7).propagates = false ∧
      (pingTick ⟨42, .errCode ("TIMEOUT"), .ok, .ok⟩ 7).lastActivity = 7) :=
  ⟨(ping_tick_outcomes ⟨42, .ok, .ok, .ok⟩ 7).1 rfl,
    (ping_tick_outcomes ⟨42, .errCode ("TIMEOUT"), .ok, .ok⟩ 7).2.2.1
      ("TIMEOUT") rfl (by decide) rfl⟩

/-- C6 counterexample: a visibility-change event to visible with a hidden
duration of 65 seconds qualifies, and the handler broadcasts once with
reason visibility-change, yet because the session fetch returns no
session the refreshSession call is made zero times — refuting exactly one
session-refresh attempt per qualifying event. -/
theorem qualifying_visibility_event_without_session_refreshes_zero_times :
    visQualifies 65000 ⟨0, 64000⟩ = true ∧
    (visibilityHandler true ⟨65000, .ok none, .ok, .ok⟩
      ⟨0, 64000⟩).effects.count .refreshSession = 0 ∧
    broadcasts (visibilityHandler true ⟨65000, .ok none, .ok, .ok⟩
      ⟨0, 64000⟩).effects = [("visibility-change", some 65000)] := by
  decide

/-- C6 (amended): on a visibility-change event to visible the manager
performs the recovery actions iff hiddenDuration > 1 second or
timeSinceLastVisible > 60 seconds; each qualifying event signals
reconnect exactly once and broadcasts exactly one refresh notification
with reason visibility-change carrying the hidden duration, and the
refreshSession call is made exactly once when the session fetch delivers
a session and zero times otherwise. -/
theorem visibility_recovery_iff_thresholds (env : VisEnv) (vs : VisState) :
    (visQualifies env.now vs = false →
      (visibilityHandler true env vs).effects = []) ∧
    (visQualifies env.now vs = true →
      (visibilityHandler true env vs).effects.count .reconnect = 1 ∧
      broadcasts (visibilityHandler true env vs).effects =
        [("visibility-change", some (hiddenDurationOf env.now vs))] ∧
      (visibilityHandler true env vs).effects.count .refreshSession =
        (if sessionPresent env.fetch then 1 else 0)) := by
  constructor
  · intro hq
    simp [visibilityHandler, hq]
  · intro hq
    obtain ⟨h1, h2, h3, h4⟩ := visSessionChain_counts env
    rw [visHandler_qualifying_effects env vs hq]
    refine ⟨?_, ?_, ?_⟩
    · simp [List.count_cons, List.count_append, h2, broadcasts]
    · simp [broadcasts, List.filterMap_cons, List.filterMap_append]
      simpa [broadcasts] using h3
    · simp [List.count_cons, List.count_append, h4, broadcasts]

/-- C6 witness: the amended theorem instantiated at a qualifying event
(65 seconds hidden) whose fetch delivers a session. -/
theorem visibility_recovery_iff_thresholds_witness :
    (visibilityHandler true ⟨65000, .ok (some ⟨some 9⟩), .ok, .ok⟩
      ⟨0, 64000⟩).effects.count .reconnect = 1 ∧
    (visibilityHandler true ⟨65000, .ok (some ⟨some 9⟩), .ok, .ok⟩
      ⟨0, 64000⟩).effects.count .refreshSession = 1 :=
  have h := (visibility_recovery_iff_thresholds
    ⟨65000, .ok (some ⟨some 9⟩), .ok, .ok⟩ ⟨0, 64000⟩).2 (by decide)
  ⟨h.1, h.2.2.trans (by decide)⟩

/-- C7 counterexample: an idle-check tick after 11 minutes without
activity in a visible tab qualifies, broadcasts the idle-refresh
notification and resets lastActivity, yet because the session fetch
returns no session the refreshSession call is made zero times — refuting
that every qualifying tick attempts a session refresh. -/
theorem qualifying_idle_tick_without_session_refreshes_zero_times :
    idleQualifies ⟨661000, .ok none, .ok, true⟩ 0 = true ∧
    (idleTick ⟨661000, .ok none, .ok, true⟩ 0).effects.count .refreshSession = 0 ∧
    broadcasts (idleTick ⟨661000, .ok none, .ok, true⟩ 0).effects =
      [("idle-refresh", none)] ∧
    (idleTick ⟨661000, .ok none, .ok, true⟩ 0).lastActivity = 661000 := by
  decide

/-- C7 (amended): on a 5-minute idle-check tick, iff more than 10 minutes
passed since the last recorded activity and the tab is visible, the
manager broadcasts exactly one refresh notification with reason
idle-refresh and resets lastActivity to the current time, making the
refreshSession call exactly once when the session fetch delivers a
session and zero times otherwise (its errors swallowed: the refresh
outcome never changes the tick's behaviour, and no logout or redirect
ever occurs); on a non-qualifying tick nothing happens. -/
theorem idle_tick_iff_thresholds (env : IdleEnv) (la : Nat) :
    (idleQualifies env la = false → idleTick env la = ⟨[], la⟩) ∧
    (idleQualifies env la = true →
      broadcasts (idleTick env la).effects = [("idle-refresh", none)] ∧
      (idleTick env la).lastActivity = env.now ∧
      (idleTick env la).effects.count .refreshSession =
        (if sessionPresent env.fetch then 1 else 0) ∧
      (idleTick env la).effects.count .logout = 0 ∧
      (idleTick env la).effects.count .redirect = 0) ∧
    (∀ r, idleTick ⟨env.now, env.fetch, r, env.visible⟩ la = idleTick env la) := by
  obtain ⟨n, f, rf, v⟩ := env
  refine ⟨?_, ?_, fun r => rfl⟩
  · intro hq
    simp [idleTick, hq]
  · intro hq
    cases f with
    | throws => simp [idleTick, hq, idleSessionChain, sessionPresent, broadcasts]
    | errorResult => simp [idleTick, hq, idleSessionChain, sessionPresent, broadcasts]
    | ok os =>
        cases os with
        | none => simp [idleTick, hq, idleSessionChain, sessionPresent, broadcasts]
        | some s => simp [idleTick, hq, idleSessionChain, sessionPresent, broadcasts]

/-- C7 witness: the amended theorem instantiated at a qualifying tick (11
minutes idle, tab visible) whose fetch delivers a session. -/
theorem idle_tick_iff_thresholds_witness :
    broadcasts (idleTick ⟨661000, .ok (some ⟨some 3⟩), .errorResult, true⟩ 0).effects =
      [("idle-refresh", none)] ∧
    (idleTick ⟨661000, .ok (some ⟨some 3⟩), .errorResult, true⟩ 0).lastActivity = 661000 ∧
    (idleTick ⟨661000, .ok (some ⟨some 3⟩), .errorResult, true⟩ 0).effects.count
      .refreshSession = 1 :=
  have h := (idle_tick_iff_thresholds
    ⟨661000, .ok (some ⟨some 3⟩), .errorResult, true⟩ 0).2.1 (by decide)
  ⟨h.1, h.2.1, h.2.2.1.trans (by decide)⟩

/-- C8 counterexample: when the probe times out and both reconnectNow
invocations throw, the throw from the reconnectNow call inside the ping
callback's catch handler escapes the callback — refuting that every
failure inside a timer callback is caught locally. -/
theorem ping_catch_reconnect_throw_escapes :
    (pingTick ⟨50, .errCode ("TIMEOUT"), .throws, .throws⟩ 7).propagates = true := by
  decide

/-- C8 (amended): no outcome of the external calls makes an exception
escape the auth-refresh callback; an exception escapes the
connection-ping callback exactly when its catch handler runs (the probe
rejected, or the reconnectNow call inside the try block threw) and the
reconnectNow call inside the catch handler itself throws — every other
failure is caught locally. -/
theorem timer_callbacks_exception_characterization
    (aenv : AuthEnv) (penv : PingEnv) (la : Nat) :
    (authTick aenv).propagates = false ∧
    ((pingTick penv la).propagates = true ↔
      (penv.reconnectInCatch = .throws ∧
        (penv.probe = .throws ∨
          ∃ c, penv.probe = .errCode c ∧ c ≠ "PGRST116" ∧
            penv.reconnectInTry = .throws))) := by
  constructor
  · obtain ⟨n, f, rr, r, l⟩ := aenv
    cases f with
    | throws => rfl
    | errorResult => rfl
    | ok os =>
        cases os with
        | none => rfl
        | some s =>
            cases hs : shouldRefresh n s with
            | false => simp [authTick, hs]
            | true =>
                cases r with
                | throws => simp [authTick, hs]
                | ok => simp [authTick, hs]
                | errorResult =>
                    cases l with
                    | throws => simp [authTick, hs]
                    | ok => simp [authTick, hs]
  · obtain ⟨n, p, rt, rc⟩ := penv
    cases p with
    | ok => simp [pingTick]
    | throws =>
        cases rc with
        | ok => simp [pingTick]
        | throws => simp [pingTick]
    | errCode c =>
        by_cases hc : c = "PGRST116"
        · simp [pingTick, hc]
        · cases rt with
          | ok => simp [pingTick, hc]
          | throws =>
              cases rc with
              | ok => simp [pingTick, hc]
              | throws => simp [pingTick, hc]

/-- C9: on an auth-refresh tick whose fetched session carries no expiry
timestamp, the expiry is treated as 0, timeUntilExpiry equals minus the
current time (negative whenever now is positive and in any case below the
5-minute threshold), and the refreshSession call is always made. -/
theorem session_without_expiry_always_refreshed (env : AuthEnv)
    (h : env.fetch = .ok (some ⟨none⟩)) :
    expiresAtMs ⟨none⟩ = 0 ∧
    timeUntilExpiry env.now ⟨none⟩ = -(env.now : Int) ∧
    timeUntilExpiry env.now ⟨none⟩ < 5 * 60 * 1000 ∧
    (0 < env.now → timeUntilExpiry env.now ⟨none⟩ < 0) ∧
    (authTick env).effects.count .refreshSession = 1 := by
  have hs : shouldRefresh env.now ⟨none⟩ = true := by
    simp only [shouldRefresh, timeUntilExpiry, expiresAtMs, Bool.or_eq_true,
      decide_eq_true_eq]
    left
    omega
  refine ⟨rfl, ?_, ?_, ?_, ?_⟩
  · simp [timeUntilExpiry, expiresAtMs]
  · simp only [timeUntilExpiry, expiresAtMs]
    omega
  · intro hn
    simp only [timeUntilExpiry, expiresAtMs]
    omega
  · cases hr : env.refresh with
    | throws => simp [authTick, h, hs, hr]
    | ok => simp [authTick, h, hs, hr]
    | errorResult =>
        cases hl : env.logout with
        | throws => simp [authTick, h, hs, hr, hl]
        | ok => simp [authTick, h, hs, hr, hl]

/-- C9 witness: the theorem instantiated at a tick whose session has no
expires_at field. -/
theorem session_without_expiry_always_refreshed_witness :
    (authTick ⟨1234, .ok (some ⟨none⟩), .ok, .ok, .ok⟩).effects.count
      .refreshSession = 1 :=
  (session_without_expiry_always_refreshed
    ⟨1234, .ok (some ⟨none⟩), .ok, .ok, .ok⟩ rfl).2.2.2.2

/-- C10: lastHiddenTime starts at 0, so on the first visibility-change to
visible (before any hidden event) the computed hiddenDuration equals the
current epoch time; whenever that time exceeds the 1-second threshold the
full recovery path fires regardless of actual hidden time: the session
chain is started (refreshing exactly once when a session is delivered),
reconnect is signalled once, and one visibility-change broadcast carrying
that duration is dispatched. -/
theorem first_visibility_event_fires_recovery (env : VisEnv) (lastVisible : Nat)
    (h : 1000 < env.now) :
    hiddenDurationOf env.now ⟨0, lastVisible⟩ = (env.now : Int) ∧
    visQualifies env.now ⟨0, lastVisible⟩ = true ∧
    (visibilityHandler true env ⟨0, lastVisible⟩).effects.count .getSession = 1 ∧
    (visibilityHandler true env ⟨0, lastVisible⟩).effects.count .reconnect = 1 ∧
    broadcasts (visibilityHandler true env ⟨0, lastVisible⟩).effects =
      [("visibility-change", some ((env.now : Nat) : Int))] ∧
    (sessionPresent env.fetch = true →
      (visibilityHandler true env ⟨0, lastVisible⟩).effects.count
        .refreshSession = 1) := by
  have hd : hiddenDurationOf env.now ⟨0, lastVisible⟩ = (env.now : Int) := by
    simp [hiddenDurationOf]
  have hq : visQualifies env.now ⟨0, lastVisible⟩ = true := by
    simp only [visQualifies, Bool.or_eq_true, decide_eq_true_eq]
    left
    rw [hd]
    omega
  obtain ⟨h1, h2, h3, h4⟩ := visSessionChain_counts env
  have he := visHandler_qualifying_effects env ⟨0, lastVisible⟩ hq
  refine ⟨hd, hq, ?_, ?_, ?_, ?_⟩
  · rw [he]
    simp [List.count_cons, List.count_append, h1]
  · rw [he]
    simp [List.count_cons, List.count_append, h2]
  · rw [he, hd]
    simp [broadcasts, List.filterMap_cons, List.filterMap_append]
    simpa [broadcasts] using h3
  · intro hp
    rw [he]
    simp [List.count_cons, List.count_append, h4, hp]

/-- C10 witness: the theorem instantiated 5 seconds after the epoch with a
session present and a lastVisibleTime in the future of now (hiddenDuration
alone qualifies). -/
theorem first_visibility_event_fires_recovery_witness :
    visQualifies 5000 ⟨0, 99999⟩ = true ∧
    (visibilityHandler true ⟨5000, .ok (some ⟨some 1⟩), .ok, .ok⟩
      ⟨0, 99999⟩).effects.count .reconnect = 1 :=
  ⟨(first_visibility_event_fires_recovery
      ⟨5000, .ok (some ⟨some 1⟩), .ok, .ok⟩ 99999 (by decide)).2.1,
    (first_visibility_event_fires_recovery
      ⟨5000, .ok (some ⟨some 1⟩), .ok, .ok⟩ 99999 (by decide)).2.2.2.1⟩
